import Mathlib

/-!
Shallow embedding of the training-load computation engine of the
athlete_dashboard repository (src/lib/training-metrics.ts,
src/lib/workout-data.ts, and the workout-service copy of the daily
aggregator), together with proofs about the claims on its behaviour.

JavaScript numbers are idealised as real numbers extended with NaN and
the two infinities; the IEEE-754 special-value propagation rules that
the source relies on (division by zero, arithmetic with infinities,
`isNaN`, `Math.exp`, `Math.round`, `Math.min`) are modelled explicitly.
-/

namespace AthleteDashboard

open scoped Classical

/-- A JavaScript `number`: a finite real value, NaN, or one of the two
infinities.  (Finite values are idealised as exact reals; `-0` is not
distinguished from `0`, which matches every use in this code base since
all zero denominators here arise as `x - x` or literal `0`, i.e. `+0`.) -/
inductive JSNum where
  | num : ℝ → JSNum
  | nan : JSNum
  | inf : JSNum
  | ninf : JSNum

namespace JSNum

/-- JS `isNaN`. -/
def isNaN : JSNum → Bool
  | nan => true
  | _ => false

/-- The value is a finite number. -/
def finite : JSNum → Prop
  | num _ => True
  | _ => False

/-- The value is a finite number that is negative. -/
def negative : JSNum → Prop
  | num x => x < 0
  | ninf => True
  | _ => False

/-- JS addition. -/
def add : JSNum → JSNum → JSNum
  | nan, _ => nan
  | _, nan => nan
  | num x, num y => num (x + y)
  | num _, inf => inf
  | num _, ninf => ninf
  | inf, num _ => inf
  | ninf, num _ => ninf
  | inf, inf => inf
  | inf, ninf => nan
  | ninf, inf => nan
  | ninf, ninf => ninf

/-- JS subtraction. -/
def sub : JSNum → JSNum → JSNum
  | nan, _ => nan
  | _, nan => nan
  | num x, num y => num (x - y)
  | num _, inf => ninf
  | num _, ninf => inf
  | inf, num _ => inf
  | ninf, num _ => ninf
  | inf, inf => nan
  | inf, ninf => inf
  | ninf, inf => ninf
  | ninf, ninf => nan

/-- JS multiplication (`0 * ±∞ = NaN`, sign rules otherwise). -/
noncomputable def mul : JSNum → JSNum → JSNum
  | nan, _ => nan
  | _, nan => nan
  | num x, num y => num (x * y)
  | num x, inf => if 0 < x then inf else if x < 0 then ninf else nan
  | num x, ninf => if 0 < x then ninf else if x < 0 then inf else nan
  | inf, num y => if 0 < y then inf else if y < 0 then ninf else nan
  | ninf, num y => if 0 < y then ninf else if y < 0 then inf else nan
  | inf, inf => inf
  | inf, ninf => ninf
  | ninf, inf => ninf
  | ninf, ninf => inf

/-- JS division (division by the zero produced in this code base is
division by `+0`: positive numerator gives `+∞`, negative gives `-∞`,
zero gives NaN). -/
noncomputable def div : JSNum → JSNum → JSNum
  | nan, _ => nan
  | _, nan => nan
  | num x, num y =>
      if y = 0 then (if 0 < x then inf else if x < 0 then ninf else nan)
      else num (x / y)
  | num _, inf => num 0
  | num _, ninf => num 0
  | inf, num y => if y < 0 then ninf else inf
  | ninf, num y => if y < 0 then inf else ninf
  | inf, inf => nan
  | inf, ninf => nan
  | ninf, inf => nan
  | ninf, ninf => nan

/-- JS `Math.exp`. -/
noncomputable def exp : JSNum → JSNum
  | num x => num (Real.exp x)
  | nan => nan
  | inf => inf
  | ninf => num 0

/-- JS `Math.round`: nearest integer, halves toward `+∞`, i.e.
`⌊x + 1/2⌋` on finite values; NaN and the infinities are fixed points. -/
noncomputable def round : JSNum → JSNum
  | num x => num (⌊x + 1 / 2⌋ : ℤ)
  | nan => nan
  | inf => inf
  | ninf => ninf

/-- JS `Math.min` (NaN-propagating). -/
noncomputable def min : JSNum → JSNum → JSNum
  | nan, _ => nan
  | _, nan => nan
  | num x, num y => num (Min.min x y)
  | num x, inf => num x
  | inf, num y => num y
  | num _, ninf => ninf
  | ninf, num _ => ninf
  | inf, inf => inf
  | inf, ninf => ninf
  | ninf, inf => ninf
  | ninf, ninf => ninf

/-- JS `<` comparison (false whenever either side is NaN). -/
def lt : JSNum → JSNum → Prop
  | nan, _ => False
  | _, nan => False
  | num x, num y => x < y
  | num _, inf => True
  | num _, ninf => False
  | inf, _ => False
  | ninf, num _ => True
  | ninf, inf => True
  | ninf, ninf => False

/-- JS `<=` comparison (false whenever either side is NaN). -/
def le : JSNum → JSNum → Prop
  | nan, _ => False
  | _, nan => False
  | num x, num y => x ≤ y
  | num _, inf => True
  | num _, ninf => False
  | inf, num _ => False
  | inf, inf => True
  | inf, ninf => False
  | ninf, _ => True

end JSNum

/-- JS truthiness of an optional numeric field: `undefined`, `0` and
NaN are falsy; every other number is truthy. -/
def jsTruthy : Option JSNum → Prop
  | none => False
  | some (JSNum.num x) => x ≠ 0
  | some JSNum.nan => False
  | some JSNum.inf => True
  | some JSNum.ninf => True

/-! Embedding of src/lib/training-metrics.ts. -/

/-- src/lib/training-metrics.ts, `calculateTrimp`: TRIMP from duration
and heart-rate data (Banister formula, male gender factor). -/
noncomputable def calculateTrimp
    (durationMinutes avgHeartRate restingHeartRate maxHeartRate : JSNum) : JSNum :=
  if durationMinutes.isNaN ∨ avgHeartRate.isNaN ∨ restingHeartRate.isNaN ∨
      maxHeartRate.isNaN ∨ durationMinutes.le (.num 0) ∨ avgHeartRate.le (.num 0) ∨
      restingHeartRate.le (.num 0) ∨ maxHeartRate.le (.num 0) then
    .num 0
  else
    let hrr := (avgHeartRate.sub restingHeartRate).div (maxHeartRate.sub restingHeartRate)
    let genderFactor : JSNum := .num 1.92
    let trimp := ((durationMinutes.mul hrr).mul (.num 0.64)).mul ((genderFactor.mul hrr).exp)
    if trimp.isNaN then .num 0 else trimp.round

/-- src/lib/training-metrics.ts, `calculateTrimpFromPace`: TRIMP from
pace and distance when no heart-rate data is available.  The
`elevationGain` parameter defaults to 0 at call sites that omit it. -/
noncomputable def calculateTrimpFromPace
    (durationMinutes distanceKm elevationGain : JSNum) : JSNum :=
  if durationMinutes.isNaN ∨ distanceKm.isNaN ∨ elevationGain.isNaN ∨
      durationMinutes.le (.num 0) ∨ distanceKm.le (.num 0) then
    .num 0
  else
    let paceMinPerKm := durationMinutes.div distanceKm
    let intensityFactor : JSNum :=
      if paceMinPerKm.lt (.num 4) then .num 0.9
      else if paceMinPerKm.lt (.num 4.5) then .num 0.8
      else if paceMinPerKm.lt (.num 5) then .num 0.7
      else if paceMinPerKm.lt (.num 5.5) then .num 0.6
      else if paceMinPerKm.lt (.num 6) then .num 0.5
      else if paceMinPerKm.lt (.num 7) then .num 0.4
      else .num 0.3
    let elevationFactor : JSNum :=
      if JSNum.lt (.num 0) elevationGain
      then JSNum.min (elevationGain.div (.num 1000)) (.num 0.2)
      else .num 0
    let trimp := durationMinutes.mul (intensityFactor.add elevationFactor)
    if trimp.isNaN then .num 0 else trimp.round

/-- One iteration of the exponentially-weighted-average loop shared by
`calculateATL` (time constant 7) and `calculateCTL` (time constant 42):
given the running pair (weightedSum, weightSum) and the pair
(i, value-at-distance-i-from-the-latest-day), add
`(isNaN(v) ? 0 : v) * exp(-i/timeConstant)` to the weighted sum and
`exp(-i/timeConstant)` to the weight sum. -/
noncomputable def expWeightStep (timeConstant : ℝ)
    (acc : JSNum × JSNum) (p : ℕ × JSNum) : JSNum × JSNum :=
  let weight : JSNum := .num (Real.exp (-(p.1 : ℝ) / timeConstant))
  (acc.1.add ((if p.2.isNaN then JSNum.num 0 else p.2).mul weight),
   acc.2.add weight)

/-- src/lib/training-metrics.ts, `calculateATL`: acute training load.
Empty input gives 0; fewer than 7 days averages what is available; with
at least 7 days it is the exponentially weighted average of the last 7
daily values, weights `exp(-i/7)` with i = 0 at the most recent day.
The source loop indexes `last7Days[last7Days.length - 1 - i]`, i.e. it
walks the last 7 days from newest to oldest, which is the fold below
over the enumeration of the reversed window. -/
noncomputable def calculateATL (dailyTrimpValues : List JSNum) : JSNum :=
  if dailyTrimpValues.length = 0 then .num 0
  else if dailyTrimpValues.length < 7 then
    let avgTrimp :=
      (dailyTrimpValues.foldl
          (fun (sum trimp : JSNum) => sum.add (if trimp.isNaN then JSNum.num 0 else trimp))
          (.num 0)).div (.num (dailyTrimpValues.length : ℝ))
    if avgTrimp.isNaN then .num 0 else avgTrimp.round
  else
    let last7Days := dailyTrimpValues.drop (dailyTrimpValues.length - 7)
    let atlTimeConstant : ℝ := 7
    let sums := (last7Days.reverse.enum).foldl (expWeightStep atlTimeConstant) (.num 0, .num 0)
    let result := sums.1.div sums.2
    if result.isNaN then .num 0 else result.round

/-- src/lib/training-metrics.ts, `calculateCTL`: chronic training load.
Empty input gives 0; otherwise the exponentially weighted average of
the last `min(length, 42)` daily values with weights `exp(-i/42)`,
newest first, exactly as in `calculateATL`'s main branch. -/
noncomputable def calculateCTL (dailyTrimpValues : List JSNum) : JSNum :=
  if dailyTrimpValues.length = 0 then .num 0
  else
    let daysToUse := Min.min dailyTrimpValues.length 42
    let relevantDays := dailyTrimpValues.drop (dailyTrimpValues.length - daysToUse)
    let ctlTimeConstant : ℝ := 42
    let sums := (relevantDays.reverse.enum).foldl (expWeightStep ctlTimeConstant) (.num 0, .num 0)
    let result := sums.1.div sums.2
    if result.isNaN then .num 0 else result.round

/-- src/lib/training-metrics.ts, `calculateTSB`: training stress
balance, CTL minus ATL with NaN inputs collapsed to 0. -/
def calculateTSB (ctl atl : JSNum) : JSNum :=
  if ctl.isNaN ∨ atl.isNaN then .num 0 else ctl.sub atl

/-- src/lib/training-metrics.ts, `calculateRampRate`: difference
between the latest CTL value and the one 7 entries back, rounded to one
decimal place; 0 when fewer than 7 entries exist.  Out-of-range array
access in JS yields `undefined`, modelled by the NaN default. -/
noncomputable def calculateRampRate (ctlValues : List JSNum) : JSNum :=
  if ctlValues.length < 7 then .num 0
  else
    let currentCTL :=
      if (ctlValues.getD (ctlValues.length - 1) .nan).isNaN then JSNum.num 0
      else ctlValues.getD (ctlValues.length - 1) .nan
    let weekAgoCTL :=
      if (ctlValues.getD (ctlValues.length - 7) .nan).isNaN then JSNum.num 0
      else ctlValues.getD (ctlValues.length - 7) .nan
    let result := currentCTL.sub weekAgoCTL
    if result.isNaN then .num 0 else ((result.mul (.num 10)).round).div (.num 10)

/-- src/lib/training-metrics.ts, `TrainingLoadZone`. -/
inductive TrainingLoadZone where
  | Detraining
  | Recovery
  | Maintenance
  | Productive
  | Optimal
  | Overreaching
  | Overtraining
deriving DecidableEq

/-- src/lib/training-metrics.ts, `getTrainingLoadZone`: zone from TSB
and CTL; NaN inputs are first collapsed to 0, then the checks run in
fixed order with the `ctl < 30` check first. -/
noncomputable def getTrainingLoadZone (tsb ctl : JSNum) : TrainingLoadZone :=
  let safeTsb := if tsb.isNaN then JSNum.num 0 else tsb
  let safeCtl := if ctl.isNaN then JSNum.num 0 else ctl
  if safeCtl.lt (.num 30) then .Detraining
  else if JSNum.lt (.num 25) safeTsb then .Recovery
  else if JSNum.lt (.num 5) safeTsb then .Maintenance
  else if JSNum.lt (.num (-10)) safeTsb then .Productive
  else if JSNum.lt (.num (-25)) safeTsb then .Optimal
  else if JSNum.lt (.num (-40)) safeTsb then .Overreaching
  else .Overtraining

/-! Embedding of src/lib/workout-data.ts (the daily aggregator over the
in-memory `Workout` records).  Non-numeric fields (id, title, type,
notes) play no role in any computation and are omitted; `Date` values
appear only through `getTime()` and are modelled as their
milliseconds-since-epoch real value. -/

/-- src/lib/workout-data.ts, `Workout` (numeric fields only; `date` is
the value of `date.getTime()` in milliseconds). -/
structure Workout where
  date : ℝ
  distance : JSNum
  duration : JSNum
  pace : JSNum
  elevationGain : JSNum
  avgHeartRate : Option JSNum
  maxHeartRate : Option JSNum

/-- src/lib/workout-data.ts, `calculateTrimpFromHeartRate`: TRIMP via
`calculateTrimp` with default resting heart rate 60 and, when the
sample has no truthy `maxHeartRate`, default max heart rate 190.  An
absent `avgHeartRate` is JS `undefined`, modelled as NaN. -/
noncomputable def calculateTrimpFromHeartRate (workout : Workout) : JSNum :=
  let restingHeartRate : JSNum := .num 60
  let maxHeartRate : JSNum := .num 190
  calculateTrimp workout.duration (workout.avgHeartRate.getD .nan) restingHeartRate
    (if jsTruthy workout.maxHeartRate then workout.maxHeartRate.getD .nan else maxHeartRate)

/-- src/lib/workout-data.ts, `calculateTrimpFromWorkout`: TRIMP via the
pace fallback. -/
noncomputable def calculateTrimpFromWorkout (workout : Workout) : JSNum :=
  calculateTrimpFromPace workout.duration workout.distance workout.elevationGain

/-- The per-workout score chosen inside `calculateDailyTrimpValues`:
the ternary `workout.avgHeartRate ? calculateTrimpFromHeartRate(workout)
: calculateTrimpFromWorkout(workout)`, i.e. branch selection by JS
truthiness of `avgHeartRate`. -/
noncomputable def workoutTrimp (workout : Workout) : JSNum :=
  if jsTruthy workout.avgHeartRate then calculateTrimpFromHeartRate workout
  else calculateTrimpFromWorkout workout

/-- One `forEach` iteration of `calculateDailyTrimpValues`: compute the
day index of the workout relative to `today`, and when it lies inside
the window add the workout's score into that bucket. -/
noncomputable def dailyStep (today : ℝ) (days : ℕ)
    (dailyTrimp : List JSNum) (workout : Workout) : List JSNum :=
  let dayIndex : ℤ := ⌊(today - workout.date) / (1000 * 60 * 60 * 24)⌋
  if 0 ≤ dayIndex ∧ dayIndex < (days : ℤ) then
    let trimp := workoutTrimp workout
    dailyTrimp.set dayIndex.toNat ((dailyTrimp.getD dayIndex.toNat .nan).add trimp)
  else dailyTrimp

/-- src/lib/workout-data.ts, `calculateDailyTrimpValues`: start from an
all-zero array of length `days`, accumulate every workout whose day
index is in range into its bucket, and reverse into chronological
order.  The source reads the current time internally
(`const today = new Date()`); it is passed here explicitly as the
millisecond value `today`. -/
noncomputable def calculateDailyTrimpValues
    (today : ℝ) (workouts : List Workout) (days : ℕ) : List JSNum :=
  ((workouts.foldl (dailyStep today days) (List.replicate days (.num 0)))).reverse

/-! Embedding of the workout-service copy of the aggregator's scoring
helpers (src/unnamed/part_002): `calculateTrimpFromWorkout` there
branches on the truthiness of the database row's `avg_heart_rate`
field.  Durations are stored in seconds and pace in seconds per km in
that copy, hence the divisions by 60. -/

namespace WorkoutService

/-- Numeric fields of the `workouts` database row used by the
workout-service scoring helpers. -/
structure Workout where
  duration : JSNum
  distance : JSNum
  pace : JSNum
  elevation_gain : JSNum
  avg_heart_rate : Option JSNum
  max_heart_rate : Option JSNum

/-- src/unnamed/part_002, `calculateTrimpFromHeartRate` (no input
guard in this copy): Banister TRIMP with defaults 190/60 and duration
converted from seconds to minutes. -/
noncomputable def calculateTrimpFromHeartRate (workout : Workout) : JSNum :=
  let maxHeartRate : JSNum :=
    if jsTruthy workout.max_heart_rate then workout.max_heart_rate.getD .nan else .num 190
  let restingHeartRate : JSNum := .num 60
  let hrr := ((workout.avg_heart_rate.getD .nan).sub restingHeartRate).div
    (maxHeartRate.sub restingHeartRate)
  let genderFactor : JSNum := .num 1.92
  let durationMinutes := workout.duration.div (.num 60)
  let trimp := ((durationMinutes.mul hrr).mul (.num 0.64)).mul ((genderFactor.mul hrr).exp)
  if trimp.isNaN then .num 0 else trimp.round

/-- src/unnamed/part_002, `calculateTrimpFromPace` (no input guard in
this copy): the same pace step table applied to `pace / 60` with the
elevation bonus, on `duration / 60` minutes. -/
noncomputable def calculateTrimpFromPace (workout : Workout) : JSNum :=
  let paceMinPerKm := workout.pace.div (.num 60)
  let intensityFactor : JSNum :=
    if paceMinPerKm.lt (.num 4) then .num 0.9
    else if paceMinPerKm.lt (.num 4.5) then .num 0.8
    else if paceMinPerKm.lt (.num 5) then .num 0.7
    else if paceMinPerKm.lt (.num 5.5) then .num 0.6
    else if paceMinPerKm.lt (.num 6) then .num 0.5
    else if paceMinPerKm.lt (.num 7) then .num 0.4
    else .num 0.3
  let elevationFactor : JSNum :=
    if JSNum.lt (.num 0) workout.elevation_gain
    then JSNum.min (workout.elevation_gain.div (.num 1000)) (.num 0.2)
    else .num 0
  let durationMinutes := workout.duration.div (.num 60)
  let trimp := durationMinutes.mul (intensityFactor.add elevationFactor)
  if trimp.isNaN then .num 0 else trimp.round

/-- src/unnamed/part_002, `calculateTrimpFromWorkout`: use the
heart-rate helper when `avg_heart_rate` is truthy, otherwise the pace
helper. -/
noncomputable def calculateTrimpFromWorkout (workout : Workout) : JSNum :=
  if jsTruthy workout.avg_heart_rate then calculateTrimpFromHeartRate workout
  else calculateTrimpFromPace workout

end WorkoutService

/-! Concrete inputs used to instantiate the theorems below. -/

/-- The 10-day daily series [0,0,0,0,0,0,0,50,0,0] of the end-to-end
scenario (a single 50-load session on day 8 of 10). -/
def series10 : List JSNum :=
  [.num 0, .num 0, .num 0, .num 0, .num 0, .num 0, .num 0, .num 50, .num 0, .num 0]

/-- A pace-scored sample: 20 minutes over 3.5 km (pace 40/7 ≈ 5.71
min/km, intensity 0.5), flat, no heart-rate data; its score is 10. -/
def sampleA : Workout :=
  ⟨86400000, .num 3.5, .num 20, .num 0, .num 0, none, none⟩

/-- A pace-scored sample on the same calendar day as `sampleA`: 25
minutes over 5 km (pace 5 min/km, intensity 0.6), flat, no heart-rate
data; its score is 15. -/
def sampleB : Workout :=
  ⟨86400000, .num 5, .num 25, .num 0, .num 0, none, none⟩

/-- A sample whose `avgHeartRate` is present but equal to 0. -/
def sampleZeroHR : Workout :=
  ⟨86400000, .num 5, .num 25, .num 0, .num 0, some (.num 0), some (.num 180)⟩

/-- A workout-service database row whose `avg_heart_rate` is present
but equal to 0 (duration in seconds, pace in seconds per km). -/
def rowZeroHR : WorkoutService.Workout :=
  ⟨.num 1500, .num 5, .num 300, .num 0, some (.num 0), some (.num 180)⟩

/-- A 7-entry chronic-load series ending in 5: ramp rate 5.0. -/
def ctl7 : List JSNum :=
  [.num 0, .num 0, .num 0, .num 0, .num 0, .num 0, .num 5]

/-! Basic reduction lemmas for the JS-number model. -/

namespace JSNum

@[simp] theorem isNaN_num (x : ℝ) : (num x).isNaN = false := rfl

@[simp] theorem isNaN_nan : nan.isNaN = true := rfl

@[simp] theorem isNaN_inf : inf.isNaN = false := rfl

@[simp] theorem isNaN_ninf : ninf.isNaN = false := rfl

@[simp] theorem finite_num (x : ℝ) : (num x).finite := trivial

@[simp] theorem add_num_num (x y : ℝ) : (num x).add (num y) = num (x + y) := rfl

@[simp] theorem sub_num_num (x y : ℝ) : (num x).sub (num y) = num (x - y) := rfl

@[simp] theorem mul_num_num (x y : ℝ) : (num x).mul (num y) = num (x * y) := rfl

@[simp] theorem exp_num (x : ℝ) : (num x).exp = num (Real.exp x) := rfl

@[simp] theorem round_num (x : ℝ) : (num x).round = num (⌊x + 1 / 2⌋ : ℤ) := rfl

@[simp] theorem le_num_num (x y : ℝ) : (num x).le (num y) ↔ x ≤ y := Iff.rfl

@[simp] theorem lt_num_num (x y : ℝ) : (num x).lt (num y) ↔ x < y := Iff.rfl

theorem div_num_num (x : ℝ) {y : ℝ} (h : y ≠ 0) :
    (num x).div (num y) = num (x / y) := by
  simp [div, h]

theorem div_num_zero_pos {x : ℝ} (h : 0 < x) : (num x).div (num 0) = inf := by
  simp [div, h]

theorem mul_num_inf {x : ℝ} (h : 0 < x) : (num x).mul inf = inf := by
  simp [mul, h]

theorem mul_inf_num {y : ℝ} (h : 0 < y) : inf.mul (num y) = inf := by
  simp [mul, h]

@[simp] theorem mul_inf_inf : inf.mul inf = inf := rfl

@[simp] theorem exp_inf : inf.exp = inf := rfl

@[simp] theorem round_inf : inf.round = inf := rfl

@[simp] theorem sub_inf_num (y : ℝ) : inf.sub (num y) = inf := rfl

theorem div_inf_num {y : ℝ} (h : ¬y < 0) : inf.div (num y) = inf := by
  simp [div, h]

@[simp] theorem add_zero_left (a : JSNum) : (num 0).add a = a := by
  cases a <;> simp [add]

/-- The NaN guard `isNaN(v) ? 0 : v` of the source, as used in the
accumulation loops. -/
@[simp] theorem ite_isNaN_finite {v : JSNum} (h : v.finite ∨ v.isNaN) :
    (if v.isNaN then num 0 else v).finite := by
  cases v <;> simp_all [finite]

end JSNum

/-- C6: classifyZone is a total function returning exactly one of the
seven zones, evaluated in fixed priority order with the chronic < 30
check first, overriding every balance-based check; in particular
classifyZone(balance=-5, chronic=20) = Detraining,
classifyZone(balance=30, chronic=50) = Recovery, and
classifyZone(balance=-50, chronic=50) = Overtraining. -/
theorem C6_classifyZone_priority_and_values :
    (∀ (tsb : JSNum) (c : ℝ), c < 30 →
      getTrainingLoadZone tsb (.num c) = .Detraining) ∧
    getTrainingLoadZone (.num (-5)) (.num 20) = .Detraining ∧
    getTrainingLoadZone (.num 30) (.num 50) = .Recovery ∧
    getTrainingLoadZone (.num (-50)) (.num 50) = .Overtraining ∧
    (∀ tsb ctl : JSNum,
      getTrainingLoadZone tsb ctl = .Detraining ∨
      getTrainingLoadZone tsb ctl = .Recovery ∨
      getTrainingLoadZone tsb ctl = .Maintenance ∨
      getTrainingLoadZone tsb ctl = .Productive ∨
      getTrainingLoadZone tsb ctl = .Optimal ∨
      getTrainingLoadZone tsb ctl = .Overreaching ∨
      getTrainingLoadZone tsb ctl = .Overtraining) := by
  refine ⟨?_, ?_, ?_, ?_, ?_⟩
  · intro tsb c hc
    simp [getTrainingLoadZone, JSNum.lt, hc]
  · norm_num [getTrainingLoadZone, JSNum.lt, JSNum.isNaN]
  · norm_num [getTrainingLoadZone, JSNum.lt, JSNum.isNaN]
  · norm_num [getTrainingLoadZone, JSNum.lt, JSNum.isNaN]
  · intro tsb ctl
    cases h : getTrainingLoadZone tsb ctl <;> simp

/-- C6 witness: the chronic-low override at balance 0, chronic 20. -/
theorem C6_classifyZone_priority_and_values_witness :
    (20 : ℝ) < 30 ∧ getTrainingLoadZone (.num 0) (.num 20) = .Detraining :=
  ⟨by norm_num, C6_classifyZone_priority_and_values.1 (.num 0) 20 (by norm_num)⟩

/-- Rounding a non-negative value yields a non-negative value. -/
theorem jsRound_nonneg {x : ℝ} (hx : 0 ≤ x) :
    JSNum.le (.num 0) (JSNum.num x).round := by
  simp only [JSNum.round_num, JSNum.le_num_num]
  have h : (0 : ℤ) ≤ ⌊x + 1 / 2⌋ := Int.le_floor.mpr (by push_cast; linarith)
  exact_mod_cast h

/-- C2 counterexample: on the heart-rate path with maxHR = restingHR =
60 and avgHR = 120 (all finite and positive, maxHR ≤ restingHR), the
division by zero makes hrr = +∞ and the result is +Infinity, not 0. -/
theorem C2_counterexample_maxHR_eq_restingHR :
    calculateTrimp (.num 30) (.num 120) (.num 60) (.num 60) = JSNum.inf ∧
    JSNum.inf ≠ JSNum.num 0 := by
  constructor
  · unfold calculateTrimp
    rw [if_neg (by norm_num [JSNum.le, JSNum.isNaN])]
    norm_num [JSNum.sub_num_num, JSNum.div, JSNum.mul, JSNum.exp, JSNum.isNaN, JSNum.round]
  · simp

/-- C2 amended: the heart-rate scorer returns 0 when any of the four
inputs is NaN or non-positive; and with maxHR = restingHR = 60 it also
returns 0 whenever avgHR ≤ 60 (hrr is then NaN or -∞ and the product
collapses to NaN); but when maxHR ≤ restingHR the result is not 0 in
general (it is +Infinity for avgHR > restingHR = maxHR, see the
counterexample). -/
theorem C2_scoreSession_guard_zero :
    (∀ durationMinutes avgHeartRate restingHeartRate maxHeartRate : JSNum,
      (durationMinutes.isNaN ∨ avgHeartRate.isNaN ∨ restingHeartRate.isNaN ∨
        maxHeartRate.isNaN ∨ durationMinutes.le (.num 0) ∨ avgHeartRate.le (.num 0) ∨
        restingHeartRate.le (.num 0) ∨ maxHeartRate.le (.num 0)) →
      calculateTrimp durationMinutes avgHeartRate restingHeartRate maxHeartRate = .num 0) ∧
    (∀ x : ℝ, 0 < x → x ≤ 60 →
      calculateTrimp (.num 30) (.num x) (.num 60) (.num 60) = .num 0) := by
  constructor
  · intro d a r m h
    unfold calculateTrimp
    rw [if_pos h]
  · intro x hx hx60
    unfold calculateTrimp
    rw [if_neg (by norm_num [JSNum.le, JSNum.isNaN]; linarith)]
    rcases eq_or_lt_of_le hx60 with heq | hlt
    · subst heq
      norm_num [JSNum.sub_num_num, JSNum.div, JSNum.mul, JSNum.exp, JSNum.isNaN]
    · have h1 : x - 60 < 0 := by linarith
      have h2 : ¬(0 : ℝ) < x - 60 := by linarith
      norm_num [JSNum.sub_num_num, JSNum.div, JSNum.mul, JSNum.exp, JSNum.isNaN, h1, h2]

/-- C2 witness: the guard at a NaN duration, and the collapse at
avgHR = 30 with maxHR = restingHR = 60. -/
theorem C2_scoreSession_guard_zero_witness :
    (JSNum.nan.isNaN = true) ∧
    calculateTrimp .nan (.num 100) (.num 100) (.num 150) = .num 0 ∧
    ((0 : ℝ) < 30 ∧ (30 : ℝ) ≤ 60 ∧
      calculateTrimp (.num 30) (.num 30) (.num 60) (.num 60) = .num 0) :=
  ⟨rfl, C2_scoreSession_guard_zero.1 _ _ _ _ (Or.inl rfl),
    by norm_num, by norm_num,
    C2_scoreSession_guard_zero.2 30 (by norm_num) (by norm_num)⟩

/-- C3 counterexample: a sample with avgHeartRate = +Infinity (an
Infinity numeric field) passes the NaN/non-positive guard, drives hrr
to +∞ and scores +Infinity, not 0. -/
theorem C3_counterexample_infinite_avgHR :
    calculateTrimp (.num 30) .inf (.num 60) (.num 180) = JSNum.inf ∧
    JSNum.inf ≠ JSNum.num 0 := by
  constructor
  · unfold calculateTrimp
    rw [if_neg (by norm_num [JSNum.le, JSNum.isNaN])]
    norm_num [JSNum.sub, JSNum.div, JSNum.mul, JSNum.exp, JSNum.isNaN, JSNum.round]
  · simp

/-- C3 amended: both scoring branches return exactly 0 for a NaN
numeric field or a non-positive duration (never NaN, never negative);
an Infinity field, however, is not caught by the guards and can yield a
nonzero (even infinite) score, see the counterexample. -/
theorem C3_scoreSession_nan_and_nonpositive_zero :
    (∀ durationMinutes avgHeartRate restingHeartRate maxHeartRate : JSNum,
      (durationMinutes.isNaN ∨ avgHeartRate.isNaN ∨ restingHeartRate.isNaN ∨
        maxHeartRate.isNaN) →
      calculateTrimp durationMinutes avgHeartRate restingHeartRate maxHeartRate = .num 0) ∧
    (∀ durationMinutes avgHeartRate restingHeartRate maxHeartRate : JSNum,
      durationMinutes.le (.num 0) →
      calculateTrimp durationMinutes avgHeartRate restingHeartRate maxHeartRate = .num 0) ∧
    (∀ durationMinutes distanceKm elevationGain : JSNum,
      (durationMinutes.isNaN ∨ distanceKm.isNaN ∨ elevationGain.isNaN) →
      calculateTrimpFromPace durationMinutes distanceKm elevationGain = .num 0) ∧
    (∀ durationMinutes distanceKm elevationGain : JSNum,
      durationMinutes.le (.num 0) →
      calculateTrimpFromPace durationMinutes distanceKm elevationGain = .num 0) := by
  refine ⟨?_, ?_, ?_, ?_⟩
  · intro d a r m h
    unfold calculateTrimp
    rw [if_pos (by tauto)]
  · intro d a r m h
    unfold calculateTrimp
    rw [if_pos (by tauto)]
  · intro d k e h
    unfold calculateTrimpFromPace
    rw [if_pos (by tauto)]
  · intro d k e h
    unfold calculateTrimpFromPace
    rw [if_pos (by tauto)]

/-- C3 witness: a NaN heart rate, a zero duration, a NaN distance, and
a negative duration all score 0. -/
theorem C3_scoreSession_nan_and_nonpositive_zero_witness :
    (JSNum.nan.isNaN = true) ∧
    calculateTrimp (.num 30) .nan (.num 60) (.num 180) = .num 0 ∧
    (JSNum.le (.num 0) (.num 0) ∧
      calculateTrimp (.num 0) (.num 150) (.num 60) (.num 180) = .num 0) ∧
    calculateTrimpFromPace (.num 30) .nan (.num 0) = .num 0 ∧
    (JSNum.le (.num (-5)) (.num 0) ∧
      calculateTrimpFromPace (.num (-5)) (.num 10) (.num 0) = .num 0) :=
  ⟨rfl,
    C3_scoreSession_nan_and_nonpositive_zero.1 _ _ _ _ (Or.inr (Or.inl rfl)),
    ⟨by norm_num [JSNum.le], C3_scoreSession_nan_and_nonpositive_zero.2.1 _ _ _ _
      (by norm_num [JSNum.le])⟩,
    C3_scoreSession_nan_and_nonpositive_zero.2.2.1 _ _ _ (Or.inr (Or.inl rfl)),
    ⟨by norm_num [JSNum.le], C3_scoreSession_nan_and_nonpositive_zero.2.2.2 _ _ _
      (by norm_num [JSNum.le])⟩⟩

/-- C4 counterexample: with duration 100, avgHR 50, restingHR 60,
maxHR 180 (all finite, positive, in the documented domain), the
heart-rate branch produces hrr = -1/12 and the score rounds to a
negative integer, so scoreSession is not non-negative when avgHeartRate
is below restingHeartRate. -/
theorem C4_counterexample_negative_score :
    (calculateTrimp (.num 100) (.num 50) (.num 60) (.num 180)).negative := by
  have hE : (21 / 25 : ℝ) ≤ Real.exp (1.92 * ((50 - 60) / (180 - 60))) := by
    have h := Real.add_one_le_exp (1.92 * ((50 - 60) / (180 - 60)) : ℝ)
    norm_num at h ⊢
    linarith
  unfold calculateTrimp
  rw [if_neg (by norm_num [JSNum.le, JSNum.isNaN])]
  simp only [JSNum.sub_num_num]
  rw [JSNum.div_num_num _ (by norm_num : (180 - 60 : ℝ) ≠ 0)]
  simp only [JSNum.mul_num_num, JSNum.exp_num, JSNum.isNaN_num, Bool.false_eq_true,
    if_false, JSNum.round_num, JSNum.negative]
  have hlt : 100 * ((50 - 60) / (180 - 60)) * 0.64 *
      Real.exp (1.92 * ((50 - 60) / (180 - 60))) + 1 / 2 < 0 := by
    nlinarith [hE, Real.exp_pos (1.92 * ((50 - 60) / (180 - 60)) : ℝ)]
  have h4 : ⌊100 * ((50 - 60) / (180 - 60)) * 0.64 *
      Real.exp (1.92 * ((50 - 60) / (180 - 60))) + 1 / 2⌋ < 0 := by
    rw [Int.floor_lt]
    exact_mod_cast hlt
  exact_mod_cast h4

/-- C4 amended: the score is non-negative on the heart-rate branch for
finite positive inputs whenever restingHR ≤ avgHR and restingHR < maxHR
(hrr ≥ 0), and on the pace branch for all finite inputs; when
avgHeartRate is below restingHeartRate the heart-rate branch can return
a negative value (see the counterexample). -/
theorem C4_scoreSession_nonneg :
    (∀ d a r m : ℝ, 0 < d → 0 < r → r ≤ a → r < m →
      JSNum.le (.num 0) (calculateTrimp (.num d) (.num a) (.num r) (.num m))) ∧
    (∀ d k e : ℝ,
      JSNum.le (.num 0) (calculateTrimpFromPace (.num d) (.num k) (.num e))) := by
  constructor
  · intro d a r m hd hr hra hrm
    unfold calculateTrimp
    rw [if_neg (by
      simp only [JSNum.isNaN_num, Bool.false_eq_true, false_or, JSNum.le_num_num,
        not_or, not_le]
      exact ⟨hd, by linarith, hr, by linarith⟩)]
    simp only [JSNum.sub_num_num]
    rw [JSNum.div_num_num _ (ne_of_gt (by linarith : (0 : ℝ) < m - r))]
    simp only [JSNum.mul_num_num, JSNum.exp_num, JSNum.isNaN_num, Bool.false_eq_true,
      if_false]
    apply jsRound_nonneg
    have hfrac : (0 : ℝ) ≤ (a - r) / (m - r) :=
      div_nonneg (by linarith) (by linarith)
    have := Real.exp_pos (1.92 * ((a - r) / (m - r)))
    positivity
  · intro d k e
    unfold calculateTrimpFromPace
    by_cases hguard : (JSNum.num d).isNaN ∨ (JSNum.num k).isNaN ∨ (JSNum.num e).isNaN ∨
        (JSNum.num d).le (.num 0) ∨ (JSNum.num k).le (.num 0)
    · rw [if_pos hguard]
      norm_num [JSNum.le]
    · rw [if_neg hguard]
      simp only [JSNum.isNaN_num, Bool.false_eq_true, false_or, JSNum.le_num_num,
        not_or, not_le] at hguard
      obtain ⟨hd, hk⟩ := hguard
      rw [JSNum.div_num_num _ (ne_of_gt hk)]
      have hiF : ∃ c : ℝ, 0 < c ∧
          (if JSNum.lt (.num (d / k)) (.num 4) then JSNum.num 0.9
            else if JSNum.lt (.num (d / k)) (.num 4.5) then JSNum.num 0.8
            else if JSNum.lt (.num (d / k)) (.num 5) then JSNum.num 0.7
            else if JSNum.lt (.num (d / k)) (.num 5.5) then JSNum.num 0.6
            else if JSNum.lt (.num (d / k)) (.num 6) then JSNum.num 0.5
            else if JSNum.lt (.num (d / k)) (.num 7) then JSNum.num 0.4
            else JSNum.num 0.3) = JSNum.num c := by
        split_ifs
        exacts [⟨0.9, by norm_num, rfl⟩, ⟨0.8, by norm_num, rfl⟩, ⟨0.7, by norm_num, rfl⟩,
          ⟨0.6, by norm_num, rfl⟩, ⟨0.5, by norm_num, rfl⟩, ⟨0.4, by norm_num, rfl⟩,
          ⟨0.3, by norm_num, rfl⟩]
      have heF : ∃ b : ℝ, 0 ≤ b ∧
          (if JSNum.lt (.num 0) (.num e)
            then JSNum.min ((JSNum.num e).div (.num 1000)) (.num 0.2)
            else JSNum.num 0) = JSNum.num b := by
        split_ifs with he
        · rw [JSNum.div_num_num _ (by norm_num : (1000 : ℝ) ≠ 0)]
          refine ⟨Min.min (e / 1000) 0.2, ?_, rfl⟩
          simp only [JSNum.lt_num_num] at he
          exact le_min (by positivity) (by norm_num)
        · exact ⟨0, le_refl 0, rfl⟩
      obtain ⟨c, hc, hiFeq⟩ := hiF
      obtain ⟨b, hb, heFeq⟩ := heF
      simp only [hiFeq, heFeq, JSNum.add_num_num, JSNum.mul_num_num, JSNum.isNaN_num,
        Bool.false_eq_true, if_false]
      apply jsRound_nonneg
      nlinarith

/-- C4 witness: a heart-rate sample (30 min, avgHR 150, restingHR 60,
maxHR 190) and a pace sample (30 min, 5 km, flat) both score
non-negatively. -/
theorem C4_scoreSession_nonneg_witness :
    ((0 : ℝ) < 30 ∧ (0 : ℝ) < 60 ∧ (60 : ℝ) ≤ 150 ∧ (60 : ℝ) < 190 ∧
      JSNum.le (.num 0) (calculateTrimp (.num 30) (.num 150) (.num 60) (.num 190))) ∧
    JSNum.le (.num 0) (calculateTrimpFromPace (.num 30) (.num 5) (.num 0)) :=
  ⟨⟨by norm_num, by norm_num, by norm_num, by norm_num,
    C4_scoreSession_nonneg.1 30 150 60 190 (by norm_num) (by norm_num) (by norm_num)
      (by norm_num)⟩,
    C4_scoreSession_nonneg.2 30 5 0⟩

/-- The loop weights `exp(-i/7)` are powers of `exp(-1/7)`. -/
theorem exp_neg_div_seven_pow (i : ℕ) :
    Real.exp (-(i : ℝ) / 7) = Real.exp (-(1 : ℝ) / 7) ^ i := by
  rw [← Real.exp_nat_mul]
  congr 1
  ring

/-- Crude two-sided rational bounds on `exp(-1/7)`. -/
theorem exp_neg_one_seventh_bounds :
    (6 / 7 : ℝ) ≤ Real.exp (-(1 : ℝ) / 7) ∧ Real.exp (-(1 : ℝ) / 7) ≤ 7 / 8 := by
  constructor
  · have h := Real.add_one_le_exp (-(1 : ℝ) / 7)
    linarith
  · have h8 : (8 / 7 : ℝ) ≤ Real.exp ((1 : ℝ) / 7) := by
      have h := Real.add_one_le_exp ((1 : ℝ) / 7)
      linarith
    have hinv : Real.exp (-(1 : ℝ) / 7) = (Real.exp ((1 : ℝ) / 7))⁻¹ := by
      rw [← Real.exp_neg]
      congr 1
      ring
    rw [hinv]
    calc (Real.exp ((1 : ℝ) / 7))⁻¹ ≤ (8 / 7 : ℝ)⁻¹ :=
          inv_le_inv_of_le (by norm_num) h8
      _ = 7 / 8 := by norm_num

/-- Evaluation of `calculateATL` on the 10-day scenario series: the
series has 10 ≥ 7 entries, so the exponential branch runs over the last
7 days [0,0,0,0,50,0,0]; the weighted average is 50·E²/(1+E+⋯+E⁶) with
E = exp(-1/7), which lies in [7.5, 8.5) and rounds to 8. -/
theorem calculateATL_series10 : calculateATL series10 = .num 8 := by
  obtain ⟨hE1, hE2⟩ := exp_neg_one_seventh_bounds
  set E : ℝ := Real.exp (-(1 : ℝ) / 7) with hEdef
  have hEpos : (0 : ℝ) < E := Real.exp_pos _
  have hen : (series10.drop (series10.length - 7)).reverse.enum =
      [(0, JSNum.num 0), (1, JSNum.num 0), (2, JSNum.num 50), (3, JSNum.num 0),
        (4, JSNum.num 0), (5, JSNum.num 0), (6, JSNum.num 0)] := rfl
  unfold calculateATL
  rw [if_neg (by simp [series10]), if_neg (by simp [series10])]
  simp only [hen, List.foldl_cons, List.foldl_nil, expWeightStep, JSNum.isNaN_num,
    Bool.false_eq_true, if_false, JSNum.mul_num_num, JSNum.add_num_num,
    exp_neg_div_seven_pow, ← hEdef]
  have hb : ∀ i : ℕ, E ^ i ≤ (7 / 8 : ℝ) ^ i := fun i =>
    pow_le_pow_left (le_of_lt hEpos) hE2 i
  have ha : ∀ i : ℕ, (6 / 7 : ℝ) ^ i ≤ E ^ i := fun i =>
    pow_le_pow_left (by norm_num) hE1 i
  have hS : (0 : ℝ) <
      0 + E ^ 0 + E ^ 1 + E ^ 2 + E ^ 3 + E ^ 4 + E ^ 5 + E ^ 6 := by
    have h0 := pow_pos hEpos 0
    have h1 := pow_pos hEpos 1
    have h2 := pow_pos hEpos 2
    have h3 := pow_pos hEpos 3
    have h4 := pow_pos hEpos 4
    have h5 := pow_pos hEpos 5
    have h6 := pow_pos hEpos 6
    linarith
  have hW : (0 + 0 * E ^ 0 + 0 * E ^ 1 + 50 * E ^ 2 + 0 * E ^ 3 + 0 * E ^ 4 +
      0 * E ^ 5 + 0 * E ^ 6) = 50 * E ^ 2 := by ring
  have hupper : 50 * E ^ 2 <
      (8.5 : ℝ) * (0 + E ^ 0 + E ^ 1 + E ^ 2 + E ^ 3 + E ^ 4 + E ^ 5 + E ^ 6) := by
    have hb2 := hb 2
    have ha0 := ha 0
    have ha1 := ha 1
    have ha2 := ha 2
    have ha3 := ha 3
    have ha4 := ha 4
    have ha5 := ha 5
    have ha6 := ha 6
    have hnum : (50 : ℝ) * (7 / 8) ^ 2 <
        (8.5 : ℝ) * ((6 / 7 : ℝ) ^ 0 + (6 / 7 : ℝ) ^ 1 + (6 / 7 : ℝ) ^ 2 +
          (6 / 7 : ℝ) ^ 3 + (6 / 7 : ℝ) ^ 4 + (6 / 7 : ℝ) ^ 5 + (6 / 7 : ℝ) ^ 6) := by
      norm_num
    linarith
  have hlower : (7.5 : ℝ) *
      (0 + E ^ 0 + E ^ 1 + E ^ 2 + E ^ 3 + E ^ 4 + E ^ 5 + E ^ 6) ≤ 50 * E ^ 2 := by
    have ha2 := ha 2
    have hb0 := hb 0
    have hb1 := hb 1
    have hb2 := hb 2
    have hb3 := hb 3
    have hb4 := hb 4
    have hb5 := hb 5
    have hb6 := hb 6
    have hnum : (7.5 : ℝ) * ((7 / 8 : ℝ) ^ 0 + (7 / 8 : ℝ) ^ 1 + (7 / 8 : ℝ) ^ 2 +
        (7 / 8 : ℝ) ^ 3 + (7 / 8 : ℝ) ^ 4 + (7 / 8 : ℝ) ^ 5 + (7 / 8 : ℝ) ^ 6) ≤
        (50 : ℝ) * (6 / 7) ^ 2 := by
      norm_num
    linarith
  rw [JSNum.div_num_num _ (ne_of_gt hS)]
  simp only [JSNum.isNaN_num, Bool.false_eq_true, if_false, JSNum.round_num]
  have hfloor : ⌊(0 + 0 * E ^ 0 + 0 * E ^ 1 + 50 * E ^ 2 + 0 * E ^ 3 + 0 * E ^ 4 +
      0 * E ^ 5 + 0 * E ^ 6) /
      (0 + E ^ 0 + E ^ 1 + E ^ 2 + E ^ 3 + E ^ 4 + E ^ 5 + E ^ 6) + 1 / 2⌋ = 8 := by
    rw [Int.floor_eq_iff]
    constructor
    · have : (7.5 : ℝ) ≤ (0 + 0 * E ^ 0 + 0 * E ^ 1 + 50 * E ^ 2 + 0 * E ^ 3 +
          0 * E ^ 4 + 0 * E ^ 5 + 0 * E ^ 6) /
          (0 + E ^ 0 + E ^ 1 + E ^ 2 + E ^ 3 + E ^ 4 + E ^ 5 + E ^ 6) := by
        rw [le_div_iff hS]
        linarith
      push_cast
      linarith
    · have : (0 + 0 * E ^ 0 + 0 * E ^ 1 + 50 * E ^ 2 + 0 * E ^ 3 + 0 * E ^ 4 +
          0 * E ^ 5 + 0 * E ^ 6) /
          (0 + E ^ 0 + E ^ 1 + E ^ 2 + E ^ 3 + E ^ 4 + E ^ 5 + E ^ 6) < 8.5 := by
        rw [div_lt_iff hS]
        linarith
      push_cast
      linarith
  rw [hfloor]
  norm_num

/-- C1 counterexample: on the 10-day series [0,0,0,0,0,0,0,50,0,0] the
acute load for the latest day is not 5: the series has 10 ≥ 7 entries,
so the warm-up averaging rule does not apply and the exponential
weighted average (which rounds to 8) is returned instead. -/
theorem C1_counterexample_not_mean :
    calculateATL series10 ≠ .num 5 := by
  rw [calculateATL_series10]
  intro h
  simp only [JSNum.num.injEq] at h
  norm_num at h

/-- C1 amended: for the 10-day daily series [0,0,0,0,0,0,0,50,0,0] the
acute load of the latest day is computed by the exponential branch over
the trailing 7 days and equals 8; the warm-up arithmetic-mean fallback
applies only to series with fewer than 7 entries, e.g. the 3-day series
[50,0,0] yields round(50/3) = 17. -/
theorem C1_acuteLoad_exponential_branch :
    calculateATL series10 = .num 8 ∧
    calculateATL [.num 50, .num 0, .num 0] = .num 17 := by
  refine ⟨calculateATL_series10, ?_⟩
  unfold calculateATL
  rw [if_neg (by simp), if_pos (by simp)]
  simp only [List.foldl_cons, List.foldl_nil, JSNum.isNaN_num, Bool.false_eq_true,
    if_false, JSNum.add_num_num, List.length_cons, List.length_nil]
  rw [JSNum.div_num_num _ (by norm_num : ((0 + 1 + 1 + 1 : ℕ) : ℝ) ≠ 0)]
  simp only [JSNum.isNaN_num, Bool.false_eq_true, if_false, JSNum.round_num]
  have hfloor : ⌊(0 + 50 + 0 + 0 : ℝ) / ((0 + 1 + 1 + 1 : ℕ) : ℝ) + 1 / 2⌋ = 17 := by
    rw [Int.floor_eq_iff]
    push_cast
    norm_num
  rw [hfloor]
  norm_num

/-- The NaN guard of the accumulation loops turns a finite-or-NaN value
into a finite one. -/
theorem nanGuard_num (v : JSNum) (h : v.finite ∨ v.isNaN) :
    ∃ g : ℝ, (if v.isNaN then JSNum.num 0 else v) = .num g := by
  cases v with
  | num x => exact ⟨x, rfl⟩
  | nan => exact ⟨0, rfl⟩
  | inf => simp [JSNum.finite, JSNum.isNaN] at h
  | ninf => simp [JSNum.finite, JSNum.isNaN] at h

/-- Invariant of the exponentially-weighted accumulation loop: over
finite-or-NaN entries both accumulators stay finite, the weight sum
never decreases, and it strictly increases on a nonempty list. -/
theorem foldl_expWeightStep_finite (τ : ℝ) :
    ∀ (ps : List (ℕ × JSNum)) (w s : ℝ),
      (∀ p ∈ ps, (Prod.snd p).finite ∨ (Prod.snd p).isNaN) →
      ∃ w' s' : ℝ,
        ps.foldl (expWeightStep τ) (.num w, .num s) = (.num w', .num s') ∧
        s ≤ s' ∧ (ps ≠ [] → s < s') := by
  intro ps
  induction ps with
  | nil =>
    intro w s _
    exact ⟨w, s, rfl, le_refl s, fun h => absurd rfl h⟩
  | cons p rest ih =>
    intro w s h
    obtain ⟨g, hg⟩ := nanGuard_num p.2 (h p (List.mem_cons_self p rest))
    have hstep : expWeightStep τ (.num w, .num s) p =
        (.num (w + g * Real.exp (-(p.1 : ℝ) / τ)),
         .num (s + Real.exp (-(p.1 : ℝ) / τ))) := by
      simp only [expWeightStep, hg, JSNum.mul_num_num, JSNum.add_num_num]
    obtain ⟨w', s', heq, hle, _⟩ :=
      ih (w + g * Real.exp (-(p.1 : ℝ) / τ)) (s + Real.exp (-(p.1 : ℝ) / τ))
        (fun q hq => h q (List.mem_cons_of_mem p hq))
    have hexp : (0 : ℝ) < Real.exp (-(p.1 : ℝ) / τ) := Real.exp_pos _
    refine ⟨w', s', ?_, by linarith, fun _ => by linarith⟩
    rw [List.foldl_cons, hstep, heq]

/-- The fold of the warm-up averaging branch stays finite over
finite-or-NaN entries. -/
theorem foldl_nanGuardSum_num :
    ∀ (l : List JSNum) (w : ℝ), (∀ v ∈ l, v.finite ∨ v.isNaN) →
      ∃ w' : ℝ,
        l.foldl (fun (sum trimp : JSNum) =>
          sum.add (if trimp.isNaN then JSNum.num 0 else trimp)) (.num w) = .num w' := by
  intro l
  induction l with
  | nil => intro w _; exact ⟨w, rfl⟩
  | cons v rest ih =>
    intro w h
    obtain ⟨g, hg⟩ := nanGuard_num v (h v (List.mem_cons_self v rest))
    obtain ⟨w', hw'⟩ := ih (w + g) (fun q hq => h q (List.mem_cons_of_mem v hq))
    refine ⟨w', ?_⟩
    rw [List.foldl_cons, hg, JSNum.add_num_num, hw']

/-- Every second component of the enumeration of the reversed window is
an entry of the original series. -/
theorem snd_mem_of_mem_enum_reverse_drop {l : List JSNum} {n : ℕ} {p : ℕ × JSNum}
    (hp : p ∈ ((l.drop n).reverse).enum) : p.2 ∈ l := by
  have h1 : p.2 ∈ ((l.drop n).reverse).enum.map Prod.snd := List.mem_map_of_mem _ hp
  rw [List.enum_map_snd] at h1
  rw [List.mem_reverse] at h1
  exact List.drop_subset n l h1

/-- C5 counterexample: an Infinity entry is not collapsed by the NaN
guard, so a series containing Infinity makes both computeAcuteLoad and
computeChronicLoad return +Infinity rather than a finite number. -/
theorem C5_counterexample_infinity_propagates :
    calculateATL [JSNum.inf] = JSNum.inf ∧ calculateCTL [JSNum.inf] = JSNum.inf ∧
    JSNum.inf ≠ JSNum.num 0 := by
  refine ⟨?_, ?_, by simp⟩
  · unfold calculateATL
    rw [if_neg (by simp), if_pos (by simp)]
    simp only [List.foldl_cons, List.foldl_nil, JSNum.isNaN_inf, Bool.false_eq_true,
      if_false, JSNum.add_zero_left, List.length_cons, List.length_nil]
    rw [JSNum.div_inf_num (by norm_num)]
    simp
  · unfold calculateCTL
    rw [if_neg (by simp)]
    have hen : (([JSNum.inf].drop
        ([JSNum.inf].length - Min.min [JSNum.inf].length 42)).reverse).enum =
        [(0, JSNum.inf)] := rfl
    simp only [hen, List.foldl_cons, List.foldl_nil, expWeightStep, JSNum.isNaN_inf,
      Bool.false_eq_true, if_false]
    rw [JSNum.mul_inf_num (Real.exp_pos _), JSNum.add_zero_left, JSNum.add_zero_left]
    rw [JSNum.div_inf_num (not_lt.mpr (Real.exp_pos _).le)]
    simp

/-- C5 amended: over a daily series all of whose entries are finite or
NaN, both computeAcuteLoad and computeChronicLoad return a finite
number (NaN entries are collapsed to 0 by the per-entry guard); an
Infinity entry, however, propagates to an Infinity result, see the
counterexample. -/
theorem C5_loads_finite_on_finite_or_nan_series :
    ∀ l : List JSNum, (∀ v ∈ l, v.finite ∨ v.isNaN) →
      (calculateATL l).finite ∧ (calculateCTL l).finite := by
  intro l hl
  constructor
  · unfold calculateATL
    by_cases h0 : l.length = 0
    · rw [if_pos h0]
      exact JSNum.finite_num 0
    · rw [if_neg h0]
      by_cases h7 : l.length < 7
      · rw [if_pos h7]
        obtain ⟨w', hw'⟩ := foldl_nanGuardSum_num l 0 hl
        rw [hw', JSNum.div_num_num _ (by exact_mod_cast h0 : ((l.length : ℝ)) ≠ 0)]
        simp
      · rw [if_neg h7]
        obtain ⟨w', s', heq, _, hpos⟩ :=
          foldl_expWeightStep_finite 7 ((l.drop (l.length - 7)).reverse).enum 0 0
            (fun p hp => hl p.2 (snd_mem_of_mem_enum_reverse_drop hp))
        have hne : ((l.drop (l.length - 7)).reverse).enum ≠ [] := by
          have hlen : ((l.drop (l.length - 7)).reverse).enum.length = 7 := by
            rw [List.enum_length, List.length_reverse, List.length_drop]
            omega
          intro hnil
          rw [hnil] at hlen
          simp at hlen
        have hs : (0 : ℝ) < s' := hpos hne
        simp [heq, JSNum.div_num_num _ (ne_of_gt hs)]
  · unfold calculateCTL
    by_cases h0 : l.length = 0
    · rw [if_pos h0]
      exact JSNum.finite_num 0
    · rw [if_neg h0]
      obtain ⟨w', s', heq, _, hpos⟩ :=
        foldl_expWeightStep_finite 42
          ((l.drop (l.length - Min.min l.length 42)).reverse).enum 0 0
          (fun p hp => hl p.2 (snd_mem_of_mem_enum_reverse_drop hp))
      have hne : ((l.drop (l.length - Min.min l.length 42)).reverse).enum ≠ [] := by
        have hlen : ((l.drop (l.length - Min.min l.length 42)).reverse).enum.length =
            Min.min l.length 42 := by
          rw [List.enum_length, List.length_reverse, List.length_drop]
          omega
        intro hnil
        rw [hnil] at hlen
        simp at hlen
        omega
      have hs : (0 : ℝ) < s' := hpos hne
      simp [heq, JSNum.div_num_num _ (ne_of_gt hs)]

/-- C5 witness: the single-entry series [50] is finite-or-NaN and both
loads on it are finite. -/
theorem C5_loads_finite_witness :
    (∀ v ∈ [JSNum.num 50], v.finite ∨ v.isNaN) ∧
    (calculateATL [JSNum.num 50]).finite ∧ (calculateCTL [JSNum.num 50]).finite :=
  ⟨by intro v hv; simp at hv; simp [hv, JSNum.finite],
    (C5_loads_finite_on_finite_or_nan_series [JSNum.num 50]
      (by intro v hv; simp at hv; simp [hv, JSNum.finite])).1,
    (C5_loads_finite_on_finite_or_nan_series [JSNum.num 50]
      (by intro v hv; simp at hv; simp [hv, JSNum.finite])).2⟩

/-- C9: computeRampRate returns 0 for every chronic-load series with
fewer than 7 entries; for every series with at least 7 entries (with
finite latest and 7-days-ago values) it returns CTL(latest) minus
CTL(7 days ago), rounded to one decimal place. -/
theorem C9_rampRate :
    (∀ l : List JSNum, l.length < 7 → calculateRampRate l = .num 0) ∧
    (∀ (l : List JSNum) (a b : ℝ), 7 ≤ l.length →
      l.getD (l.length - 1) .nan = .num a →
      l.getD (l.length - 7) .nan = .num b →
      calculateRampRate l = .num ((⌊(a - b) * 10 + 1 / 2⌋ : ℤ) / 10)) := by
  constructor
  · intro l h
    unfold calculateRampRate
    rw [if_pos h]
  · intro l a b hlen ha hb
    unfold calculateRampRate
    rw [if_neg (by omega)]
    simp only [ha, hb, JSNum.isNaN_num, Bool.false_eq_true, if_false,
      JSNum.sub_num_num, JSNum.mul_num_num, JSNum.round_num,
      JSNum.div_num_num _ (by norm_num : (10 : ℝ) ≠ 0)]

/-- C9 witness: a 6-entry series gives 0; the 7-entry series
[0,0,0,0,0,0,5] gives round((5-0)*10)/10 = 5. -/
theorem C9_rampRate_witness :
    ([JSNum.num 1, .num 1, .num 1, .num 1, .num 1, .num 1].length < 7 ∧
      calculateRampRate [JSNum.num 1, .num 1, .num 1, .num 1, .num 1, .num 1] = .num 0) ∧
    (7 ≤ ctl7.length ∧
      ctl7.getD (ctl7.length - 1) .nan = .num 5 ∧
      ctl7.getD (ctl7.length - 7) .nan = .num 0 ∧
      calculateRampRate ctl7 = .num ((⌊((5 : ℝ) - 0) * 10 + 1 / 2⌋ : ℤ) / 10)) :=
  ⟨⟨by simp, C9_rampRate.1 _ (by simp)⟩,
    ⟨by simp [ctl7], rfl, rfl, C9_rampRate.2 ctl7 5 0 (by simp [ctl7]) rfl rfl⟩⟩

/-- C10: branch selection in the daily aggregator is by truthiness of
the average-heart-rate field, in both the workout-data aggregator and
the workout-service copy: a present-but-zero value selects the
pace/elevation fallback path, and a present nonzero (finite) value
selects the heart-rate scoring path. -/
theorem C10_branch_selection_by_truthiness :
    (∀ w : Workout, w.avgHeartRate = some (.num 0) →
      workoutTrimp w = calculateTrimpFromWorkout w) ∧
    (∀ (w : Workout) (x : ℝ), w.avgHeartRate = some (.num x) → x ≠ 0 →
      workoutTrimp w = calculateTrimpFromHeartRate w) ∧
    (∀ w : WorkoutService.Workout, w.avg_heart_rate = some (.num 0) →
      WorkoutService.calculateTrimpFromWorkout w = WorkoutService.calculateTrimpFromPace w) ∧
    (∀ (w : WorkoutService.Workout) (x : ℝ), w.avg_heart_rate = some (.num x) → x ≠ 0 →
      WorkoutService.calculateTrimpFromWorkout w =
        WorkoutService.calculateTrimpFromHeartRate w) := by
  refine ⟨?_, ?_, ?_, ?_⟩
  · intro w h
    unfold workoutTrimp
    rw [h, if_neg (by simp [jsTruthy])]
  · intro w x h hx
    unfold workoutTrimp
    rw [h, if_pos (by simpa [jsTruthy] using hx)]
  · intro w h
    unfold WorkoutService.calculateTrimpFromWorkout
    rw [h, if_neg (by simp [jsTruthy])]
  · intro w x h hx
    unfold WorkoutService.calculateTrimpFromWorkout
    rw [h, if_pos (by simpa [jsTruthy] using hx)]

/-- C10 witness: the zero-heart-rate sample and row take the pace path;
replacing the field by 150 takes the heart-rate path. -/
theorem C10_branch_selection_by_truthiness_witness :
    (sampleZeroHR.avgHeartRate = some (.num 0) ∧
      workoutTrimp sampleZeroHR = calculateTrimpFromWorkout sampleZeroHR) ∧
    (rowZeroHR.avg_heart_rate = some (.num 0) ∧
      WorkoutService.calculateTrimpFromWorkout rowZeroHR =
        WorkoutService.calculateTrimpFromPace rowZeroHR) ∧
    ((Workout.mk 86400000 (.num 5) (.num 25) (.num 0) (.num 0)
        (some (.num 150)) (some (.num 180))).avgHeartRate = some (.num 150) ∧
      (150 : ℝ) ≠ 0 ∧
      workoutTrimp (Workout.mk 86400000 (.num 5) (.num 25) (.num 0) (.num 0)
          (some (.num 150)) (some (.num 180))) =
        calculateTrimpFromHeartRate (Workout.mk 86400000 (.num 5) (.num 25) (.num 0)
          (.num 0) (some (.num 150)) (some (.num 180)))) :=
  ⟨⟨rfl, C10_branch_selection_by_truthiness.1 sampleZeroHR rfl⟩,
    ⟨rfl, C10_branch_selection_by_truthiness.2.2.1 rowZeroHR rfl⟩,
    ⟨rfl, by norm_num,
      C10_branch_selection_by_truthiness.2.1 _ 150 rfl (by norm_num)⟩⟩

/-- One aggregator iteration never changes the window length. -/
theorem dailyStep_length (today : ℝ) (days : ℕ) (arr : List JSNum) (w : Workout) :
    (dailyStep today days arr w).length = arr.length := by
  by_cases h : 0 ≤ ⌊(today - w.date) / (1000 * 60 * 60 * 24)⌋ ∧
      ⌊(today - w.date) / (1000 * 60 * 60 * 24)⌋ < (days : ℤ)
  · simp [dailyStep, h]
  · simp [dailyStep, h]

/-- The aggregator fold never changes the window length. -/
theorem foldl_dailyStep_length (today : ℝ) (days : ℕ) :
    ∀ (ws : List Workout) (arr : List JSNum),
      (ws.foldl (dailyStep today days) arr).length = arr.length := by
  intro ws
  induction ws with
  | nil => intro arr; rfl
  | cons w rest ih =>
    intro arr
    rw [List.foldl_cons, ih, dailyStep_length]

/-- getD of a replicate bucket inside the window. -/
theorem getD_replicate {n i : ℕ} (h : i < n) (a d : JSNum) :
    (List.replicate n a).getD i d = a := by
  rw [List.getD_eq_getElem _ _ (by simpa using h)]
  exact List.getElem_replicate ..

/-- getD after setting the same bucket. -/
theorem getD_set_self {l : List JSNum} {i : ℕ} (h : i < l.length) (a d : JSNum) :
    (l.set i a).getD i d = a := by
  rw [List.getD_eq_getElem _ _ (by simpa using h)]
  exact List.getElem_set_self _

/-- getD through reversal: bucket i of the fold array is bucket
length-1-i of the chronological series. -/
theorem getD_reverse' {l : List JSNum} {i j : ℕ} (h : i < l.length)
    (hj : j = l.length - 1 - i) (d : JSNum) :
    l.reverse.getD j d = l.getD i d := by
  subst hj
  have h1 : l.length - 1 - i < l.reverse.length := by
    rw [List.length_reverse]; omega
  rw [List.getD_eq_getElem _ _ h1, List.getD_eq_getElem _ _ h,
    List.getElem_reverse]
  congr 1
  omega

/-- C7: two samples whose dates fall on the same calendar day (same day
index relative to today) have their per-session scores summed into that
day's bucket of the daily series — not averaged, not replaced. -/
theorem C7_same_day_scores_sum :
    ∀ (today : ℝ) (days : ℕ) (w1 w2 : Workout) (d : ℕ), d < days →
      ⌊(today - w1.date) / (1000 * 60 * 60 * 24)⌋ = (d : ℤ) →
      ⌊(today - w2.date) / (1000 * 60 * 60 * 24)⌋ = (d : ℤ) →
      (calculateDailyTrimpValues today [w1, w2] days).getD (days - 1 - d) .nan =
        (workoutTrimp w1).add (workoutTrimp w2) := by
  intro today days w1 w2 d hd h1 h2
  unfold calculateDailyTrimpValues
  rw [List.foldl_cons, List.foldl_cons, List.foldl_nil]
  have hstep1 : dailyStep today days (List.replicate days (.num 0)) w1 =
      (List.replicate days (.num 0)).set d (workoutTrimp w1) := by
    simp only [dailyStep]
    rw [if_pos (by rw [h1]; exact ⟨Int.natCast_nonneg d, by exact_mod_cast hd⟩)]
    rw [h1, Int.toNat_natCast, getD_replicate hd]
    simp only [JSNum.add_zero_left]
  have hlen1 : d < ((List.replicate days (JSNum.num 0)).set d (workoutTrimp w1)).length := by
    simp [hd]
  have hstep2 : dailyStep today days
      ((List.replicate days (.num 0)).set d (workoutTrimp w1)) w2 =
      (List.replicate days (.num 0)).set d ((workoutTrimp w1).add (workoutTrimp w2)) := by
    simp only [dailyStep]
    rw [if_pos (by rw [h2]; exact ⟨Int.natCast_nonneg d, by exact_mod_cast hd⟩)]
    rw [h2, Int.toNat_natCast,
      getD_set_self (by simpa using hd) (workoutTrimp w1) .nan, List.set_set]
  rw [hstep1, hstep2]
  have hlen : d < ((List.replicate days (JSNum.num 0)).set d
      ((workoutTrimp w1).add (workoutTrimp w2))).length := by
    simp [hd]
  have hL : ((List.replicate days (JSNum.num 0)).set d
      ((workoutTrimp w1).add (workoutTrimp w2))).length = days := by
    simp
  rw [getD_reverse' hlen (by rw [hL]), getD_set_self (by simpa using hd)]

/-- C7 witness: two flat pace-scored samples on the same calendar day
(20 min / 3.5 km and 25 min / 5 km, day index 2 in a 3-day window) have
their scores summed into that day's bucket. -/
theorem C7_same_day_scores_sum_witness :
    (2 < 3 ∧
      ⌊((259200000 : ℝ) - sampleA.date) / (1000 * 60 * 60 * 24)⌋ = (2 : ℤ) ∧
      ⌊((259200000 : ℝ) - sampleB.date) / (1000 * 60 * 60 * 24)⌋ = (2 : ℤ)) ∧
    (calculateDailyTrimpValues 259200000 [sampleA, sampleB] 3).getD (3 - 1 - 2) .nan =
      (workoutTrimp sampleA).add (workoutTrimp sampleB) := by
  have hfl : ⌊((259200000 : ℝ) - 86400000) / (1000 * 60 * 60 * 24)⌋ = (2 : ℤ) := by
    have : ((259200000 : ℝ) - 86400000) / (1000 * 60 * 60 * 24) = (2 : ℝ) := by norm_num
    rw [this]
    exact_mod_cast Int.floor_intCast (2 : ℤ)
  exact ⟨⟨by norm_num, hfl, hfl⟩,
    C7_same_day_scores_sum 259200000 3 sampleA sampleB 2 (by norm_num) hfl hfl⟩

/-- C8: the daily series always has length exactly windowDays; with
zero samples it is the all-zero array of that length; and a sample
whose day index falls outside [0, windowDays) is silently dropped. -/
theorem C8_buildDailySeries_length_empty_drop :
    (∀ (today : ℝ) (workouts : List Workout) (days : ℕ),
      (calculateDailyTrimpValues today workouts days).length = days) ∧
    (∀ (today : ℝ) (days : ℕ),
      calculateDailyTrimpValues today [] days = List.replicate days (.num 0)) ∧
    (∀ (today : ℝ) (workouts : List Workout) (w : Workout) (days : ℕ),
      ¬(0 ≤ ⌊(today - w.date) / (1000 * 60 * 60 * 24)⌋ ∧
        ⌊(today - w.date) / (1000 * 60 * 60 * 24)⌋ < (days : ℤ)) →
      calculateDailyTrimpValues today (workouts ++ [w]) days =
        calculateDailyTrimpValues today workouts days) := by
  refine ⟨?_, ?_, ?_⟩
  · intro today workouts days
    unfold calculateDailyTrimpValues
    rw [List.length_reverse, foldl_dailyStep_length, List.length_replicate]
  · intro today days
    unfold calculateDailyTrimpValues
    rw [List.foldl_nil, List.reverse_replicate]
  · intro today workouts w days hout
    unfold calculateDailyTrimpValues
    rw [List.foldl_append, List.foldl_cons, List.foldl_nil]
    congr 1
    unfold dailyStep
    rw [if_neg hout]

/-- C8 witness: a 3-day window over the two samples plus an
out-of-window sample (day index 5): length 3, and the extra sample is
dropped; the empty list gives the all-zero 3-day series. -/
theorem C8_buildDailySeries_length_empty_drop_witness :
    (calculateDailyTrimpValues 259200000 [sampleA, sampleB] 3).length = 3 ∧
    calculateDailyTrimpValues 259200000 [] 3 = List.replicate 3 (.num 0) ∧
    (¬(0 ≤ ⌊((259200000 : ℝ) - (-259200000 : ℝ)) / (1000 * 60 * 60 * 24)⌋ ∧
        ⌊((259200000 : ℝ) - (-259200000 : ℝ)) / (1000 * 60 * 60 * 24)⌋ < (3 : ℤ)) ∧
      calculateDailyTrimpValues 259200000
        ([sampleA, sampleB] ++
          [Workout.mk (-259200000) (.num 5) (.num 25) (.num 0) (.num 0) none none]) 3 =
        calculateDailyTrimpValues 259200000 [sampleA, sampleB] 3) := by
  have hfl : ⌊((259200000 : ℝ) - (-259200000 : ℝ)) / (1000 * 60 * 60 * 24)⌋ = (6 : ℤ) := by
    have : ((259200000 : ℝ) - (-259200000 : ℝ)) / (1000 * 60 * 60 * 24) = (6 : ℝ) := by
      norm_num
    rw [this]
    exact_mod_cast Int.floor_intCast (6 : ℤ)
  refine ⟨C8_buildDailySeries_length_empty_drop.1 259200000 [sampleA, sampleB] 3,
    C8_buildDailySeries_length_empty_drop.2.1 259200000 3,
    ⟨by rw [hfl]; omega, ?_⟩⟩
  exact C8_buildDailySeries_length_empty_drop.2.2 259200000 [sampleA, sampleB] _ 3
    (by rw [hfl]; omega)

end AthleteDashboard
